import Mathlib

/-!
Verification development for the Clarity Map journal application.

The development shallowly embeds the JavaScript data-management core
(`JournalDataManager`), the progress tracker (`ProgressTracker`), the
diagram generator (`MappingSystem`) and the AI integration
(`AIIntegration`) of the repository.  JavaScript values are modelled by
the inductive type `JVal`; machine numbers that matter here are small
counts, modelled by `Nat`/`Int`/`Rat`; fallible operations (strict-mode
`TypeError`s, `JSON.parse` failures) are modelled by `Option`/`Except`.
-/

set_option maxHeartbeats 1600000

namespace ClarityMap

/-- A JavaScript value: `null`, `undefined`, booleans, numbers, strings,
arrays and plain objects (association lists of string keys, in insertion
order, as produced by `JSON.parse` and object literals). -/
inductive JVal where
  | null
  | undefined
  | bool (b : Bool)
  | num (n : Int)
  | str (s : String)
  | arr (elems : List JVal)
  | obj (fields : List (String × JVal))
deriving Repr

/-- JavaScript truthiness of a value. -/
def truthy : JVal → Bool
  | .null => false
  | .undefined => false
  | .bool b => b
  | .num n => n != 0
  | .str s => !s.isEmpty
  | .arr _ => true
  | .obj _ => true

/-- Truthiness of a possibly-absent (`undefined`) property read. -/
def truthyOpt : Option JVal → Bool
  | some v => truthy v
  | none => false

/-- First binding of a key in an object field list (JS own-property lookup). -/
def objGet : List (String × JVal) → String → Option JVal
  | [], _ => none
  | (k, v) :: rest, key => if k = key then some v else objGet rest key

/-- Property assignment on an object field list: overwrites the first
binding of the key in place, or appends a new binding (JS insertion
order). -/
def objSet : List (String × JVal) → String → JVal → List (String × JVal)
  | [], key, v => [(key, v)]
  | (k, w) :: rest, key, v =>
    if k = key then (k, v) :: rest else (k, w) :: objSet rest key v

/-- Property read `v[key]` on a value; `none` models `undefined`.  Array
index and string-boxing properties never coincide with the field names
used by the application, so they read as `undefined`. -/
def getProp : JVal → String → Option JVal
  | .obj fields, key => objGet fields key
  | _, _ => none

/-- Property write `v[key] = x`.  `none` models the strict-mode
`TypeError` raised on primitives, `null` and `undefined`.  Assigning a
named property to an array succeeds in JS but only creates an expando
that is invisible to JSON persistence; the model conservatively treats
it as a fault, a corner no verified property depends on. -/
def setProp : JVal → String → JVal → Option JVal
  | .obj fields, key, v => some (.obj (objSet fields key v))
  | _, _, _ => none

/-- JS `Object.prototype.hasOwnProperty` for the string keys used by the
application (array indices and `length` never match them). -/
def hasOwnProperty (v : JVal) (key : String) : Bool :=
  match v with
  | .obj fields => (objGet fields key).isSome
  | _ => false

/-- JS `typeof v === 'object'` (true for objects, arrays and `null`). -/
def typeofObject : JVal → Bool
  | .obj _ => true
  | .arr _ => true
  | .null => true
  | _ => false

/-- The string-keyed own properties of a value, as iterated by
`Object.keys`; non-objects contribute none of the keys relevant here. -/
def objFields : JVal → List (String × JVal)
  | .obj fields => fields
  | _ => []

mutual

/-- JS `ToString` coercion, as performed by assignments such as
`element.value = v` (arrays stringify as `join(',')`). -/
def jsToString : JVal → String
  | .str s => s
  | .num n => toString n
  | .bool b => if b then "true" else "false"
  | .null => "null"
  | .undefined => "undefined"
  | .arr l => String.intercalate "," (jsToStringElems l)
  | .obj _ => "[object Object]"

/-- Stringification of the elements of an array for `join` (elements
that are `null`/`undefined` stringify to the empty string there). -/
def jsToStringElems : List JVal → List String
  | [] => []
  | .null :: rest => "" :: jsToStringElems rest
  | .undefined :: rest => "" :: jsToStringElems rest
  | v :: rest => jsToString v :: jsToStringElems rest

end

/-- JS `String.prototype.split(',')`, computed structurally over the
character list: `"a,,b"` gives `["a", "", "b"]` and the empty string
gives `[""]`. -/
def jsSplitComma (s : String) : List String :=
  (s.data.foldr
    (fun c acc =>
      match acc with
      | [] => [[c]]
      | hd :: tl => if c = ',' then [] :: hd :: tl else (c :: hd) :: tl)
    [[]]).map (fun cs => String.mk cs)

/-- JS `String.prototype.trim`, computed structurally over the character
list (leading and trailing whitespace removed). -/
def jsTrim (s : String) : String :=
  String.mk
    (((s.data.dropWhile Char.isWhitespace).reverse.dropWhile Char.isWhitespace).reverse)

/-! ## Document Model (`JournalDataManager`, js/journal-data.js)

The manager constructs timestamps with `new Date().toISOString()`; the
embedding passes the current timestamp string explicitly as `now`. -/

/-- The canonical default Document structure
(`JournalDataManager.getDefaultDataStructure`). -/
def getDefaultDataStructure (now : String) : JVal :=
  .obj [
    ("metadata", .obj [
      ("created", .str now),
      ("lastModified", .str now),
      ("version", .str "1.0"),
      ("currentSection", .str "welcome")]),
    ("welcome", .obj []),
    ("focus", .obj [
      ("lifeChallenge", .str ""),
      ("lifeAreas", .arr []),
      ("otherArea", .str ""),
      ("wantMore", .str "")]),
    ("influences", .obj [
      ("energyGivers", .str ""),
      ("energyDrainers", .str ""),
      ("stuckRoutines", .str ""),
      ("expectations", .str ""),
      ("pressures", .str ""),
      ("repeatedBehaviors", .str "")]),
    ("connections", .obj [
      ("focusAreaRepeat", .str ""),
      ("energyGiver1", .str ""),
      ("energyConnection1", .str ""),
      ("energyGiver2", .str ""),
      ("energyConnection2", .str ""),
      ("energyDrainer1", .str ""),
      ("drainerConnection1", .str ""),
      ("energyDrainer2", .str ""),
      ("drainerConnection2", .str ""),
      ("strongestPattern", .str ""),
      ("patternConnection", .str ""),
      ("ahaReflection", .str "")]),
    ("mapping", .obj [
      ("mapFocus", .str ""),
      ("mapEnergyGivers", .str ""),
      ("mapEnergyDrainers", .str ""),
      ("mapPattern", .str ""),
      ("strongestNegative", .str ""),
      ("strongestPositive", .str ""),
      ("chainReaction", .str ""),
      ("leveragePoint", .str "")]),
    ("patterns", .obj [
      ("mainLoop", .str ""),
      ("loopType", .str ""),
      ("selectedPattern", .str ""),
      ("connectionToChange", .str ""),
      ("howToChange", .str ""),
      ("systemImpact", .str ""),
      ("keyLearning", .str ""),
      ("readyToChange", .str ""),
      ("whyThisChange", .str "")]),
    ("goals", .obj [
      ("leveragePointGoal", .str ""),
      ("goalStatement", .str ""),
      ("goalImpact", .str ""),
      ("successMetrics", .str ""),
      ("potentialObstacles", .str "")]),
    ("roadmap", .obj [
      ("roadmapGoal", .str ""),
      ("milestone1", .str ""),
      ("milestone2", .str ""),
      ("milestone3", .str ""),
      ("milestone1Actions", .str ""),
      ("milestone2Actions", .str ""),
      ("milestone3Actions", .str ""),
      ("flexibilityPlan", .str ""),
      ("supportSystem", .str "")]),
    ("commitment", .obj [
      ("commitmentFoundation", .str ""),
      ("patternToInterrupt", .str ""),
      ("nowColumnImportant", .str ""),
      ("whatToGain", .str ""),
      ("commitmentText", .str ""),
      ("whenHard", .str ""),
      ("supportWho", .str ""),
      ("supportEnvironment", .str ""),
      ("whenStumble", .str ""),
      ("reminderRitual", .str ""),
      ("yourName", .str ""),
      ("signatureDate", .str ""),
      ("finalReflection", .str ""),
      ("oneWord", .str "")])]

/-- Minimal shape check (`JournalDataManager.validateDataStructure`):
truthy, `typeof === 'object'`, and owns the four required section keys. -/
def validateDataStructure (data : JVal) : Bool :=
  if !truthy data || !typeofObject data then false
  else
    ["metadata", "focus", "influences", "connections"].all
      (fun sec => hasOwnProperty data sec)

/-- The recursive helper `mergeObjects(target, source)` inside
`JournalDataManager.mergeWithDefaults`: for each own key of `source`,
a truthy non-array object value is merged recursively into `target[key]`
(first reset to `\x7b\x7d` when falsy), any other value is assigned outright.
`none` models a strict-mode `TypeError` (assignment to a primitive or to
`null`/`undefined`). -/
def mergeObjects : JVal → List (String × JVal) → Option JVal
  | target, [] => some target
  | target, (key, .obj vfields) :: rest =>
    (match (if truthyOpt (getProp target key) then some target
            else setProp target key (.obj [])) with
     | none => none
     | some t1 =>
       match mergeObjects ((getProp t1 key).getD .undefined) vfields with
       | none => none
       | some m =>
         match setProp t1 key m with
         | none => none
         | some t2 => mergeObjects t2 rest)
  | target, (key, v) :: rest =>
    match setProp target key v with
    | none => none
    | some t2 => mergeObjects t2 rest

/-- `JournalDataManager.mergeWithDefaults`: deep-merge the stored data
onto a fresh default structure, then stamp `metadata.lastModified`.
A non-object `stored` contributes no string-keyed own properties (the
call sites validate first, so this branch is unreachable there). -/
def mergeWithDefaults (now : String) (stored : JVal) : Option JVal :=
  match mergeObjects (getDefaultDataStructure now) (objFields stored) with
  | none => none
  | some merged =>
    match setProp ((getProp merged "metadata").getD .undefined) "lastModified" (.str now) with
    | none => none
    | some md2 => setProp merged "metadata" md2

/-- `JournalDataManager.loadData`: the stored slot (`null` when absent or
unreadable) is merged when it passes the shape check, otherwise the
default structure is returned.  `none` models an uncaught `TypeError`
escaping the constructor. -/
def loadData (now : String) (stored : JVal) : Option JVal :=
  if truthy stored && validateDataStructure stored then mergeWithDefaults now stored
  else some (getDefaultDataStructure now)

/-- `JournalDataManager.getField`: stored value when the section is
truthy and owns the field, else the supplied default. -/
def getField (data : JVal) (sectionName fieldId : String) (defaultValue : JVal) : JVal :=
  match getProp data sectionName with
  | some sec =>
    if truthy sec && hasOwnProperty sec fieldId then (getProp sec fieldId).getD .undefined
    else defaultValue
  | none => defaultValue

/-- `JournalDataManager.getSection`: `this.data[section] || \x7b\x7d`. -/
def getSection (data : JVal) (sectionName : String) : JVal :=
  let v := (getProp data sectionName).getD .undefined
  if truthy v then v else .obj []

/-- `JournalDataManager.saveField`: creates the section object when
falsy, sets the field, stamps `metadata.lastModified`; an exception is
caught and reported as `false`, leaving whatever had already been
mutated in place. -/
def saveField (data : JVal) (sectionName fieldId : String) (value : JVal) (now : String) :
    JVal × Bool :=
  match (if truthyOpt (getProp data sectionName) then some data
         else setProp data sectionName (.obj [])) with
  | none => (data, false)
  | some d1 =>
    match (match setProp ((getProp d1 sectionName).getD .undefined) fieldId value with
           | none => none
           | some sec2 => setProp d1 sectionName sec2) with
    | none => (d1, false)
    | some d2 =>
      match (match setProp ((getProp d2 "metadata").getD .undefined) "lastModified" (.str now) with
             | none => none
             | some md2 => setProp d2 "metadata" md2) with
      | none => (d2, false)
      | some d3 => (d3, true)

/-- `JournalDataManager.saveCurrentSection`: stamps
`metadata.currentSection` (and nothing else; in particular it does not
touch `metadata.lastModified`). -/
def saveCurrentSection (data : JVal) (currentSection : String) : Option JVal :=
  match setProp ((getProp data "metadata").getD .undefined) "currentSection"
      (.str currentSection) with
  | none => none
  | some md2 => setProp data "metadata" md2

/-- An import payload: either a string that `JSON.parse` rejects, or the
parsed (or directly passed) value.  The parse boundary is abstracted
here; everything after it follows the source. -/
inductive ImportPayload where
  | malformed
  | value (v : JVal)

/-- `JournalDataManager.importData`: validates the shape, then either
deep-merges onto defaults or replaces the document outright and stamps
`metadata.lastModified`.  The returned pair is the in-memory document
after the call and the success flag.  Note the replace branch assigns
`this.data = importedData` before stamping, so a stamping fault leaves
the imported value in memory. -/
def importData (current : JVal) (payload : ImportPayload) (merge : Bool) (now : String) :
    JVal × Bool :=
  match payload with
  | .malformed => (current, false)
  | .value importedData =>
    if !validateDataStructure importedData then (current, false)
    else if merge then
      match mergeWithDefaults now importedData with
      | some d => (d, true)
      | none => (current, false)
    else
      match setProp ((getProp importedData "metadata").getD .undefined) "lastModified"
          (.str now) with
      | some md2 =>
        match setProp importedData "metadata" md2 with
        | some d => (d, true)
        | none => (importedData, false)
      | none => (importedData, false)

/-- The seven anchor field paths of
`JournalDataManager.getCompletionPercentage`. -/
def anchorFieldPaths : List (String × String) :=
  [("focus", "wantMore"),
   ("influences", "energyGivers"),
   ("influences", "energyDrainers"),
   ("connections", "ahaReflection"),
   ("patterns", "keyLearning"),
   ("goals", "goalStatement"),
   ("commitment", "commitmentText")]

/-- The per-field completion test of `getCompletionPercentage`:
`value && typeof value === 'string' && value.trim().length > 0`. -/
def countsAsCompleted : JVal → Bool
  | .str s => !s.isEmpty && !(jsTrim s).isEmpty
  | _ => false

/-- Number of anchor fields currently counting as completed. -/
def completedAnchorCount (data : JVal) : Nat :=
  (anchorFieldPaths.filter
    (fun p => countsAsCompleted (getField data p.1 p.2 (.str "")))).length

/-- JS `Math.round` on the exact rational value (the floating-point
intermediate results of `getCompletionPercentage` are never near a
half-integer, so the rational model agrees with the source). -/
def jsRound (q : ℚ) : ℤ := Int.floor (q + 1 / 2)

/-- `JournalDataManager.getCompletionPercentage`:
`Math.round((completedFields / requiredFields.length) * 100)`. -/
def getCompletionPercentage (data : JVal) : ℤ :=
  jsRound ((completedAnchorCount data : ℚ) / ((anchorFieldPaths.length : ℚ)) * 100)

/-- `[a, b].filter(Boolean).join(', ')` as used by
`getAutoPopulationData`. -/
def joinDefined (vals : List JVal) : String :=
  String.intercalate ", " ((vals.filter truthy).map jsToString)

/-- `JournalDataManager.getAutoPopulationData`: derived default values
for a handful of fields of the target section. -/
def getAutoPopulationData (data : JVal) (targetSection : String) : List (String × JVal) :=
  if targetSection = "connections" then
    [("focusAreaRepeat", getField data "focus" "wantMore" (.str ""))]
  else if targetSection = "mapping" then
    [("mapFocus", getField data "focus" "wantMore" (.str "")),
     ("mapEnergyGivers", .str (joinDefined
        [getField data "connections" "energyGiver1" (.str ""),
         getField data "connections" "energyGiver2" (.str "")])),
     ("mapEnergyDrainers", .str (joinDefined
        [getField data "connections" "energyDrainer1" (.str ""),
         getField data "connections" "energyDrainer2" (.str "")])),
     ("mapPattern", getField data "connections" "strongestPattern" (.str ""))]
  else if targetSection = "goals" then
    [("leveragePointGoal", getField data "mapping" "leveragePoint" (.str ""))]
  else if targetSection = "roadmap" then
    [("roadmapGoal", getField data "goals" "goalStatement" (.str ""))]
  else []

/-! ## DOM surface touched by auto-population (js/app.js)

Only the attributes the embedded functions read or write are modelled:
tag name, `type`, `value` and `checked`.  A document is an association
list from element id to element; `getElementById` of a missing id gives
`none` and the source skips such fields. -/

/-- The slice of a rendered input element that
`populateSectionData`/`setupAutoPopulation` interact with. -/
structure DomElement where
  tagName : String
  etype : String
  value : String
  checked : Bool
deriving Repr, DecidableEq

/-- The rendered document: element id to element. -/
abbrev Dom := List (String × DomElement)

/-- `Utils.getElementById`. -/
def domGet : Dom → String → Option DomElement
  | [], _ => none
  | (i, el) :: rest, key => if i = key then some el else domGet rest key

/-- Assign `element.value` for the element with the given id (no-op when
the id is absent, matching the guarded call sites). -/
def domSetValue : Dom → String → String → Dom
  | [], _, _ => []
  | (i, el) :: rest, key, v =>
    if i = key then (i, { el with value := v }) :: rest
    else (i, el) :: domSetValue rest key v

/-- Assign `element.checked` for the element with the given id. -/
def domSetChecked : Dom → String → Bool → Dom
  | [], _, _ => []
  | (i, el) :: rest, key, b =>
    if i = key then (i, { el with checked := b }) :: rest
    else (i, el) :: domSetChecked rest key b

/-- `JournalDataManager.setupAutoPopulation`: for every auto-population
entry of the section, write the derived value into the element only when
the element exists and its current `value` is falsy (the empty string). -/
def setupAutoPopulation (dom : Dom) (data : JVal) (sectionName : String) : Dom :=
  (getAutoPopulationData data sectionName).foldl
    (fun d kv =>
      match domGet d kv.1 with
      | some el => if el.value.isEmpty then domSetValue d kv.1 (jsToString kv.2) else d
      | none => d)
    dom

/-- One iteration of the saved-data loop of
`ClarityMapApp.populateSectionData` for a field of the stored section. -/
def populateFieldIntoDom (dom : Dom) (fieldId : String) (value : JVal) : Dom :=
  match domGet dom fieldId with
  | none => dom
  | some el =>
    match value with
    | .undefined => dom
    | v =>
      if el.etype = "checkbox" then domSetChecked dom fieldId (truthy v)
      else if el.tagName = "SELECT" then domSetValue dom fieldId (jsToString v)
      else
        match fieldId, v with
        | "lifeAreas", .arr areas =>
          areas.foldl
            (fun d area =>
              match domGet d ("area-" ++ jsToString area) with
              | some _ => domSetChecked d ("area-" ++ jsToString area) true
              | none => d)
            dom
        | _, _ => domSetValue dom fieldId (jsToString v)

/-- `ClarityMapApp.populateSectionData`: applies auto-population first,
then writes every stored field of the section into its element. -/
def populateSectionData (dom : Dom) (data : JVal) (sectionId : String) : Dom :=
  let sectionData := getSection data sectionId
  let dom1 := setupAutoPopulation dom data sectionId
  (objFields sectionData).foldl (fun d kv => populateFieldIntoDom d kv.1 kv.2) dom1

/-! ## Progress Tracker (`ProgressTracker`, js/progress.js) -/

/-- The persisted completion set, a JS `Set` of visited section ids and
`section.field` composite keys, modelled as a duplicate-free-by-use
list. -/
abbrev CompletedSet := List String

/-- JS `Set.add`. -/
def setAdd (s : CompletedSet) (key : String) : CompletedSet :=
  if key ∈ s then s else s ++ [key]

/-- JS `Set.delete`. -/
def setDelete (s : CompletedSet) (key : String) : CompletedSet :=
  s.filter (fun x => x ≠ key)

/-- `ProgressTracker.getRequiredFieldsForSection`. -/
def getRequiredFieldsForSection (sectionName : String) : List String :=
  if sectionName = "focus" then ["wantMore"]
  else if sectionName = "influences" then ["energyGivers", "energyDrainers"]
  else if sectionName = "connections" then ["ahaReflection"]
  else if sectionName = "patterns" then ["keyLearning"]
  else if sectionName = "goals" then ["goalStatement"]
  else if sectionName = "roadmap" then ["milestone1"]
  else if sectionName = "commitment" then ["commitmentText"]
  else []

/-- The section progress percentage recomputed by
`ProgressTracker.updateSectionProgress` after a tracked field edit:
`completed / total * 100` when the section has required fields, else
`0`. -/
def updateSectionProgressValue (completedSections : CompletedSet) (sectionName : String) :
    ℚ :=
  let requiredFields := getRequiredFieldsForSection sectionName
  let completedFields := requiredFields.filter
    (fun f => (sectionName ++ "." ++ f) ∈ completedSections)
  if requiredFields.length > 0 then
    ((completedFields.length : ℚ) / (requiredFields.length : ℚ)) * 100
  else 0

/-- `ProgressTracker.updateFieldCompletionStatus`: add or remove the
`section.field` composite key. -/
def updateFieldCompletionStatus (completedSections : CompletedSet)
    (sectionName fieldId : String) (isCompleted : Bool) : CompletedSet :=
  let key := sectionName ++ "." ++ fieldId
  if isCompleted then setAdd completedSections key else setDelete completedSections key

/-- The per-section percentage reported by
`ProgressTracker.getCompletionSummary`: rounded `completed / total * 100`
when the section has required fields, else `100`. -/
def getCompletionSummaryPercentage (completedSections : CompletedSet)
    (sectionName : String) : ℤ :=
  let requiredFields := getRequiredFieldsForSection sectionName
  let completedFields := requiredFields.filter
    (fun f => (sectionName ++ "." ++ f) ∈ completedSections)
  if requiredFields.length > 0 then
    jsRound (((completedFields.length : ℚ) / (requiredFields.length : ℚ)) * 100)
  else 100

/-! ## Relationship Diagram (`MappingSystem`, js/mapping.js)

Positions are exact rationals; the trigonometric functions and `Math.PI`
are abstracted as parameters, so every statement about the produced
coordinates holds for any interpretation of `cos`/`sin`/`pi`, in
particular the floating-point one of the source. -/

/-- A diagram element as built by `MappingSystem`
(`\x7bid, text, type, x, y, width, height, draggable\x7d`). -/
structure MapElement where
  id : String
  text : String
  etype : String
  x : ℚ
  y : ℚ
  width : ℚ
  height : ℚ
  draggable : Bool
deriving Repr, DecidableEq

/-- `MappingSystem.parseInfluenceText`: non-strings and the empty string
yield no items; otherwise split on commas, trim, drop empties, keep the
first 4. -/
def parseInfluenceText (text : JVal) : List String :=
  match text with
  | .str s =>
    if s.isEmpty then []
    else ((((jsSplitComma s).map jsTrim).filter (fun item => item.length > 0)).take 4)
  | _ => []

/-- `MappingSystem.createFocusElement`: the central, non-draggable focus
node at the canvas center. -/
def createFocusElement (centerX centerY : ℚ) (focusText : String) : MapElement :=
  { id := "focus", text := focusText, etype := "focus",
    x := centerX, y := centerY, width := 150, height := 60, draggable := false }

/-- `MappingSystem.createSurroundingElements`: up to four positive nodes
at angle `(index * 2 * pi) / max(n, 1) - pi / 2`, up to four negative
nodes at angle `(index * 2 * pi) / max(n, 1) + pi / 2`, all on radius
120, plus a pattern node at the fixed offset `(+140, -100)` when the
pattern text is present. -/
def createSurroundingElements (pi : ℚ) (cosq sinq : ℚ → ℚ) (centerX centerY : ℚ)
    (energyGivers energyDrainers pattern : JVal) : List MapElement :=
  let radius : ℚ := 120
  let givers := parseInfluenceText energyGivers
  let giverElems := givers.enum.map (fun p =>
    let angle := ((p.1 : ℚ) * 2 * pi) / ((max givers.length 1 : ℕ) : ℚ) - pi / 2
    { id := "giver-" ++ toString p.1, text := p.2, etype := "positive",
      x := centerX + cosq angle * radius, y := centerY + sinq angle * radius,
      width := 100, height := 50, draggable := true : MapElement })
  let drainers := parseInfluenceText energyDrainers
  let drainerElems := drainers.enum.map (fun p =>
    let angle := ((p.1 : ℚ) * 2 * pi) / ((max drainers.length 1 : ℕ) : ℚ) + pi / 2
    { id := "drainer-" ++ toString p.1, text := p.2, etype := "negative",
      x := centerX + cosq angle * radius, y := centerY + sinq angle * radius,
      width := 100, height := 50, draggable := true : MapElement })
  let patternElems :=
    match pattern with
    | .str s =>
      if !s.isEmpty && !(jsTrim s).isEmpty then
        [{ id := "pattern", text := s, etype := "pattern",
           x := centerX + 140, y := centerY - 100,
           width := 120, height := 50, draggable := true : MapElement }]
      else []
    | _ => []
  giverElems ++ drainerElems ++ patternElems

/-- `MappingSystem.createFallbackElements`: static pill markup for the
parsed items of one influence list (empty output for falsy input). -/
def createFallbackElements (text : JVal) (etype pfx : String) : String :=
  if !truthy text then ""
  else
    let className := if etype = "positive" then "positive-element" else "negative-element"
    String.join ((parseInfluenceText text).map (fun item =>
      "<div class=\"" ++ className ++
      "\" style=\"padding: 8px 15px; border-radius: 20px; font-size: 0.9em; box-shadow: 0 2px 4px rgba(0,0,0,0.08);\">" ++
      pfx ++ item ++ "</div>"))

/-! ## Insight Requestor (`AIIntegration`, js/ai-integration.js)

The network boundary is abstracted: a `FetchOutcome` is either a
rejected `fetch` (network failure) or a settled response carrying the
`ok` flag and the parsed JSON body.  The prompt text does not influence
any verified property and is not tracked through the boundary. -/

/-- The credential-bearing state of `AIIntegration` (`apiKey` is `null`
or the stored string; `isEnabled` mirrors `!!apiKey` after
`initializeAPI`/`setAPIKey`). -/
structure AIIntegrationState where
  apiKey : Option String
  isEnabled : Bool

/-- `AIIntegration.isAvailable`: `this.isEnabled && !!this.apiKey`. -/
def isAvailable (st : AIIntegrationState) : Bool :=
  st.isEnabled &&
    (match st.apiKey with
     | some k => !k.isEmpty
     | none => false)

/-- `AIIntegration.getFallbackMessage`. -/
def getFallbackMessage (msgType : String) : String :=
  if msgType = "insights" then
    "Take a moment to reflect on the patterns you\'ve identified. What connections do you notice between your energy givers and drainers? Often, the things that drain us point toward what we value most. Your insights are forming—trust the process."
  else if msgType = "reflection" then
    "You\'ve completed a meaningful journey of self-discovery. The patterns you\'ve uncovered and the commitment you\'ve made are stepping stones toward the life you want. Trust your insights and take the next small step when you\'re ready."
  else if msgType = "insights_error" then
    "AI insights aren\'t available right now, but your own reflections are the most valuable part of this process. Take a moment to look for patterns in what you\'ve written—what surprises you most?"
  else if msgType = "reflection_error" then
    "While AI summary isn\'t available, you\'ve done the real work of understanding your patterns and making a commitment to change. That\'s what creates lasting transformation."
  else "Your insights are the most important part of this journey."

/-- JS indexing `v[0]` on a truthy value. -/
def jsElem0 : JVal → JVal
  | .arr (x :: _) => x
  | .arr [] => .undefined
  | .obj fields => (objGet fields "0").getD .undefined
  | .str s => if s.isEmpty then .undefined else .str (s.take 1)
  | _ => .undefined

/-- JS property read on a value already checked to be truthy (boxing
makes the read safe; missing properties read as `undefined`). -/
def jsPropRead (v : JVal) (key : String) : JVal :=
  (getProp v key).getD .undefined

/-- The response-body scrutiny of `AIIntegration.makeAPIRequest`: when
`data.candidates && data.candidates[0] && data.candidates[0].content`
holds, evaluate `data.candidates[0].content.parts[0].text` (whose
intermediate reads can raise a `TypeError`, modelled by `.error`), else
throw `Unexpected API response format`. -/
def extractResponseText (body : JVal) : Except Unit JVal :=
  let cand := jsPropRead body "candidates"
  if truthy cand then
    let c0 := jsElem0 cand
    if truthy c0 then
      let content := jsPropRead c0 "content"
      if truthy content then
        match jsPropRead content "parts" with
        | .null => .error ()
        | .undefined => .error ()
        | parts =>
          match jsElem0 parts with
          | .null => .error ()
          | .undefined => .error ()
          | p0 => .ok (jsPropRead p0 "text")
      else .error ()
    else .error ()
  else .error ()

/-- Outcome of the single `fetch` round trip: a rejected promise
(network failure, or a body that fails to parse as JSON) or a settled
response with its `ok` flag and parsed body. -/
inductive FetchOutcome where
  | networkError
  | response (ok : Bool) (body : JVal)

/-- `AIIntegration.makeAPIRequest` over the abstracted outcome: a
network failure rejects, a non-ok status throws, otherwise the body is
scrutinised for the generated text. -/
def makeAPIRequest (outcome : FetchOutcome) : Except Unit JVal :=
  match outcome with
  | .networkError => .error ()
  | .response ok body => if !ok then .error () else extractResponseText body

/-- Whether the expected text path
`candidates[0].content.parts[0].text` of a response body yields a
string — the only outcome the success formatting accepts; every other
body counts as missing the expected text payload. -/
def responseHasTextString (body : JVal) : Bool :=
  match extractResponseText body with
  | .ok (.str _) => true
  | _ => false

/-- Substring test (JS `String.prototype.includes`). -/
def containsSub (s pat : String) : Bool :=
  (List.range (s.length + 1)).any (fun i => pat.isPrefixOf (s.drop i))

/-- The fixed preamble prepended by `formatInsightsResponse`. -/
def insightsPreamble : String := "Here\'s what I notice from your reflections:\n\n"

/-- `AIIntegration.formatInsightsResponse`: trims the raw text and
prepends the preamble unless an acknowledgement word is present; calling
`.trim()` on a non-string response faults. -/
def formatInsightsResponse (response : JVal) : Except Unit String :=
  match response with
  | .str s =>
    let formatted := jsTrim s
    if containsSub formatted.toLower "notice" || containsSub formatted.toLower "see" then
      .ok formatted
    else .ok (insightsPreamble ++ formatted)
  | _ => .error ()

/-- `AIIntegration.generateInfluencesInsights`: without a credential the
fixed fallback resolves immediately and no request is made; with one,
any failure along the request/format path resolves to the fixed
error-fallback.  The second component records whether `fetch` ran. -/
def generateInfluencesInsights (st : AIIntegrationState) (outcome : FetchOutcome) :
    String × Bool :=
  if !isAvailable st then (getFallbackMessage "insights", false)
  else
    match makeAPIRequest outcome with
    | .error _ => (getFallbackMessage "insights_error", true)
    | .ok response =>
      match formatInsightsResponse response with
      | .ok s => (s, true)
      | .error _ => (getFallbackMessage "insights_error", true)

/-! ## Auxiliary predicates used by claim statements -/

/-- A plain (non-array) object value. -/
def isObjVal : JVal → Bool
  | .obj _ => true
  | _ => false

/-- Structural completeness of `d` against the two-level reference
structure `dflt`: every top-level key of `dflt` exists on `d`, and for
every top-level key whose `dflt` value is an object, every field key of
that object exists on the corresponding value of `d`. -/
def coveredTwoLevels (dflt d : JVal) : Bool :=
  (objFields dflt).all (fun kv =>
    hasOwnProperty d kv.1 &&
    (match kv.2 with
     | .obj gs => gs.all (fun kv2 =>
         hasOwnProperty ((getProp d kv.1).getD .undefined) kv2.1)
     | _ => true))

/-- Propositional form of `coveredTwoLevels` (used by the structural
induction over the merge). -/
def CoversProp (dflt t : JVal) : Prop :=
  ∀ kv ∈ objFields dflt,
    hasOwnProperty t kv.1 = true ∧
    ∀ gs, kv.2 = JVal.obj gs →
      ∀ kv2 ∈ gs, hasOwnProperty ((getProp t kv.1).getD .undefined) kv2.1 = true

/-! ## Basic lemmas about the object model -/

theorem objGet_objSet_self (l : List (String × JVal)) (k : String) (v : JVal) :
    objGet (objSet l k v) k = some v := by
  induction l with
  | nil => simp [objGet, objSet]
  | cons hd tl ih =>
    obtain ⟨k0, v0⟩ := hd
    by_cases h : k0 = k
    · simp [objSet, objGet, h]
    · simp [objSet, objGet, h, ih]

theorem objGet_objSet_ne (l : List (String × JVal)) (k k2 : String) (v : JVal)
    (h : k2 ≠ k) : objGet (objSet l k v) k2 = objGet l k2 := by
  have hks : ¬k = k2 := fun hh => h hh.symm
  induction l with
  | nil => simp [objGet, objSet, hks]
  | cons hd tl ih =>
    obtain ⟨k0, v0⟩ := hd
    by_cases h0 : k0 = k
    · subst h0
      simp [objSet, objGet, hks]
    · by_cases h2 : k0 = k2
      · subst h2
        simp [objSet, objGet, h0]
      · simp [objSet, objGet, h0, h2, ih]

theorem setProp_obj_exists {t t2 : JVal} {k : String} {v : JVal}
    (h : setProp t k v = some t2) :
    ∃ fields, t = .obj fields ∧ t2 = .obj (objSet fields k v) := by
  cases t <;> simp [setProp] at h
  exact ⟨_, rfl, h.symm⟩

theorem getProp_setProp_self {t t2 : JVal} {k : String} {v : JVal}
    (h : setProp t k v = some t2) : getProp t2 k = some v := by
  obtain ⟨fields, rfl, rfl⟩ := setProp_obj_exists h
  simp [getProp, objGet_objSet_self]

theorem getProp_setProp_ne {t t2 : JVal} {k k2 : String} {v : JVal}
    (h : setProp t k v = some t2) (hne : k2 ≠ k) : getProp t2 k2 = getProp t k2 := by
  obtain ⟨fields, rfl, rfl⟩ := setProp_obj_exists h
  simp [getProp, objGet_objSet_ne _ _ _ _ hne]

theorem hasOwnProperty_setProp {t t2 : JVal} {k : String} {v : JVal}
    (h : setProp t k v = some t2) (k2 : String) (hk : hasOwnProperty t k2 = true) :
    hasOwnProperty t2 k2 = true := by
  obtain ⟨fields, rfl, rfl⟩ := setProp_obj_exists h
  by_cases he : k2 = k
  · subst he
    simp [hasOwnProperty, objGet_objSet_self]
  · simpa [hasOwnProperty, objGet_objSet_ne _ _ _ _ he] using hk

theorem truthy_of_hasOwnProperty {t : JVal} {k : String}
    (h : hasOwnProperty t k = true) : truthy t = true := by
  cases t <;> simp_all [hasOwnProperty, truthy]

theorem coveredTwoLevels_iff (dflt d : JVal) :
    coveredTwoLevels dflt d = true ↔ CoversProp dflt d := by
  unfold coveredTwoLevels CoversProp
  rw [List.all_eq_true]
  refine forall_congr' fun kv => imp_congr Iff.rfl ?_
  rw [Bool.and_eq_true]
  refine and_congr Iff.rfl ?_
  cases hv : kv.2 <;> simp [List.all_eq_true]

theorem mergeObjects_nil {t t2 : JVal} (h : mergeObjects t [] = some t2) : t2 = t := by
  simp [mergeObjects] at h
  exact h.symm

theorem mergeObjects_cons_obj (t : JVal) (key : String)
    (vfields rest : List (String × JVal)) :
    mergeObjects t ((key, .obj vfields) :: rest) =
      match (if truthyOpt (getProp t key) then some t
             else setProp t key (.obj [])) with
      | none => none
      | some t1 =>
        match mergeObjects ((getProp t1 key).getD .undefined) vfields with
        | none => none
        | some m =>
          match setProp t1 key m with
          | none => none
          | some t2 => mergeObjects t2 rest := rfl

theorem mergeObjects_cons_nonobj (t : JVal) (key : String) (v : JVal)
    (rest : List (String × JVal)) (hv : ∀ f, v ≠ .obj f) :
    mergeObjects t ((key, v) :: rest) =
      match setProp t key v with
      | none => none
      | some t3 => mergeObjects t3 rest := by
  cases v with
  | obj f => exact absurd rfl (hv f)
  | null => rfl
  | undefined => rfl
  | bool b => rfl
  | num n => rfl
  | str s => rfl
  | arr l => rfl

theorem mergeObjects_hasProp {src : List (String × JVal)} {t t2 : JVal}
    (h : mergeObjects t src = some t2) (k : String)
    (hk : hasOwnProperty t k = true) : hasOwnProperty t2 k = true := by
  induction src generalizing t with
  | nil => rw [mergeObjects_nil h]; exact hk
  | cons hd tl ih =>
    obtain ⟨key, v⟩ := hd
    by_cases hobj : ∃ f, v = JVal.obj f
    · obtain ⟨vfields, rfl⟩ := hobj
      rw [mergeObjects_cons_obj] at h
      rcases h1 : (if truthyOpt (getProp t key) then some t
          else setProp t key (JVal.obj [])) with _ | t1
      · rw [h1] at h
        cases h
      have ht1 : hasOwnProperty t1 k = true := by
        by_cases htr : truthyOpt (getProp t key) = true
        · rw [if_pos htr] at h1
          cases h1
          exact hk
        · rw [if_neg htr] at h1
          exact hasOwnProperty_setProp h1 k hk
      simp only [h1] at h
      rcases h2 : mergeObjects ((getProp t1 key).getD .undefined) vfields with _ | m
      · simp only [h2] at h
        cases h
      simp only [h2] at h
      rcases h3 : setProp t1 key m with _ | t3
      · simp only [h3] at h
        cases h
      simp only [h3] at h
      exact ih h (hasOwnProperty_setProp h3 k ht1)
    · push_neg at hobj
      rw [mergeObjects_cons_nonobj t key v tl hobj] at h
      rcases h3 : setProp t key v with _ | t3
      · simp only [h3] at h
        cases h
      simp only [h3] at h
      exact ih h (hasOwnProperty_setProp h3 k hk)

/-! ## Claim C6 -/

/-- C6: `parseInfluenceText` splits its string input on commas, trims
whitespace from each piece, drops empty results, and caps the output at
4 items; in particular on `"a, b,,  c ,d,e"` it yields exactly
`["a", "b", "c", "d"]`. -/
theorem parseInfluenceText_rule :
    parseInfluenceText (.str "a, b,,  c ,d,e") = ["a", "b", "c", "d"] ∧
    (∀ t : JVal, (parseInfluenceText t).length ≤ 4) ∧
    (∀ s : String, ¬s.isEmpty →
      parseInfluenceText (.str s) =
        ((((jsSplitComma s).map jsTrim).filter
          (fun item => item.length > 0)).take 4)) := by
  refine ⟨by decide, fun t => ?_, fun s hs => ?_⟩
  · cases t <;> simp only [parseInfluenceText, List.length_nil, Nat.zero_le]
    split
    · simp
    · exact List.length_take_le 4 _
  · simp [parseInfluenceText, hs]

/-- Closed instance of `parseInfluenceText_rule` at the non-empty input
`"x,y"`. -/
theorem parseInfluenceText_rule_witness :
    parseInfluenceText (.str "x,y") =
      ((((jsSplitComma "x,y").map jsTrim).filter
        (fun item => item.length > 0)).take 4) :=
  (parseInfluenceText_rule.2.2) "x,y" (by decide)

/-! ## Claim C10 -/

/-- C10: for every input that is not a string (in particular `null` and
`undefined`), `parseInfluenceText` returns the empty list rather than
faulting, and the static fallback rendering of such an input is the
empty markup, so both renderings are total when the list-valued fields
are absent. -/
theorem parseInfluenceText_nonstring_total (v : JVal) (etype pfx : String)
    (h : ∀ s, v ≠ .str s) :
    parseInfluenceText v = [] ∧ createFallbackElements v etype pfx = "" := by
  cases v with
  | str s => exact absurd rfl (h s)
  | null => simp [parseInfluenceText, createFallbackElements, truthy]
  | undefined => simp [parseInfluenceText, createFallbackElements, truthy]
  | bool b =>
    refine ⟨rfl, ?_⟩
    simp only [createFallbackElements, parseInfluenceText]
    split <;> simp [String.join]
  | num n =>
    refine ⟨rfl, ?_⟩
    simp only [createFallbackElements, parseInfluenceText]
    split <;> simp [String.join]
  | arr l =>
    refine ⟨rfl, ?_⟩
    simp [createFallbackElements, parseInfluenceText, truthy, String.join]
  | obj fields =>
    refine ⟨rfl, ?_⟩
    simp [createFallbackElements, parseInfluenceText, truthy, String.join]

/-- Closed instance of `parseInfluenceText_nonstring_total` at `null`. -/
theorem parseInfluenceText_nonstring_total_witness :
    parseInfluenceText .null = [] ∧ createFallbackElements .null "positive" "+ " = "" :=
  parseInfluenceText_nonstring_total .null "positive" "+ " (fun s h => by cases h)

/-! ## Claim C7 -/

/-- C7, counterexample: the claim asserts the recomputed local
completion percentage is 100% for a step with no entries in the
required-field table, but after a tracked field edit on the `welcome`
step `updateSectionProgress` computes 0. -/
theorem updateSectionProgress_noRequired_counterexample :
    updateSectionProgressValue
        (updateFieldCompletionStatus [] "welcome" "intro" true) "welcome" = 0 ∧
    ¬updateSectionProgressValue
        (updateFieldCompletionStatus [] "welcome" "intro" true) "welcome" = 100 := by
  constructor <;> decide

/-- C7, amended: after a tracked field edit, the recomputed local
completion percentage of the edited step equals
`completed / total * 100` for a step with required fields, and equals
`0` — not 100% — for a step with no entries in the required-field
table; the 100% figure for such steps is produced only by the separate
`getCompletionSummary` view. -/
theorem trackFieldEdit_sectionProgress (completedSections : CompletedSet)
    (sectionName fieldId : String) (isCompleted : Bool) :
    (getRequiredFieldsForSection sectionName ≠ [] →
      updateSectionProgressValue
          (updateFieldCompletionStatus completedSections sectionName fieldId isCompleted)
          sectionName =
        (((getRequiredFieldsForSection sectionName).filter
            (fun f => (sectionName ++ "." ++ f) ∈
              updateFieldCompletionStatus completedSections sectionName fieldId
                isCompleted)).length : ℚ) /
          ((getRequiredFieldsForSection sectionName).length : ℚ) * 100) ∧
    (getRequiredFieldsForSection sectionName = [] →
      updateSectionProgressValue
          (updateFieldCompletionStatus completedSections sectionName fieldId isCompleted)
          sectionName = 0 ∧
      getCompletionSummaryPercentage
          (updateFieldCompletionStatus completedSections sectionName fieldId isCompleted)
          sectionName = 100) := by
  constructor
  · intro h
    have hlen : 0 < (getRequiredFieldsForSection sectionName).length :=
      List.length_pos.mpr h
    simp only [updateSectionProgressValue, if_pos hlen]
  · intro h
    simp [updateSectionProgressValue, getCompletionSummaryPercentage, h]

/-- Closed instance of `trackFieldEdit_sectionProgress`: completing the
single required field of `focus` yields a local percentage of 100, and
the `welcome` step (no required fields) yields 0 with a summary
percentage of 100. -/
theorem trackFieldEdit_sectionProgress_witness :
    updateSectionProgressValue
        (updateFieldCompletionStatus [] "focus" "wantMore" true) "focus" =
      ((1 : ℚ) / 1 * 100) ∧
    updateSectionProgressValue
        (updateFieldCompletionStatus [] "welcome" "anyField" true) "welcome" = 0 := by
  constructor
  · have h := (trackFieldEdit_sectionProgress [] "focus" "wantMore" true).1
      (by decide)
    rw [h]
    norm_num [getRequiredFieldsForSection, updateFieldCompletionStatus, setAdd]
  · exact ((trackFieldEdit_sectionProgress [] "welcome" "anyField" true).2 (by decide)).1

/-! ## Claim C8 -/

/-- C8: with no credential set, `generateInfluencesInsights` resolves to
the fixed fallback string and performs no network request; with a
credential set, a network failure, a non-success HTTP status, and every
response body from which the expected text path
`candidates[0].content.parts[0].text` does not yield a string all
resolve to the fixed error-fallback string instead of propagating an
exception. -/
theorem generateInfluencesInsights_fallbacks (st : AIIntegrationState)
    (outcome : FetchOutcome) (body : JVal) :
    (isAvailable st = false →
      generateInfluencesInsights st outcome = (getFallbackMessage "insights", false)) ∧
    (isAvailable st = true →
      (generateInfluencesInsights st .networkError).1 =
          getFallbackMessage "insights_error" ∧
      (generateInfluencesInsights st (.response false body)).1 =
          getFallbackMessage "insights_error" ∧
      (responseHasTextString body = false →
        (generateInfluencesInsights st (.response true body)).1 =
            getFallbackMessage "insights_error")) := by
  constructor
  · intro h
    simp [generateInfluencesInsights, h]
  · intro h
    refine ⟨?_, ?_, ?_⟩
    · simp [generateInfluencesInsights, h, makeAPIRequest]
    · simp [generateInfluencesInsights, h, makeAPIRequest]
    · intro hc
      rw [responseHasTextString] at hc
      simp only [generateInfluencesInsights, h, Bool.not_true, Bool.false_eq_true,
        if_false]
      have hreq : makeAPIRequest (.response true body) = extractResponseText body := rfl
      rw [hreq]
      rcases he : extractResponseText body with u | v
      · rfl
      · rw [he] at hc
        cases v with
        | str s => simp at hc
        | null => rfl
        | undefined => rfl
        | bool b => rfl
        | num n => rfl
        | arr l => rfl
        | obj f => rfl

/-- Closed instance of `generateInfluencesInsights_fallbacks` covering
no-credential, network-failure and non-success-status scenarios and
three bodies missing the text path at different depths: no `candidates`
key, an empty `candidates` array, and a `candidates[0]` without
`content`. -/
theorem generateInfluencesInsights_fallbacks_witness :
    generateInfluencesInsights ⟨none, false⟩ .networkError =
      (getFallbackMessage "insights", false) ∧
    (generateInfluencesInsights ⟨some "key", true⟩ .networkError).1 =
      getFallbackMessage "insights_error" ∧
    (generateInfluencesInsights ⟨some "key", true⟩ (.response false (.obj []))).1 =
      getFallbackMessage "insights_error" ∧
    (generateInfluencesInsights ⟨some "key", true⟩ (.response true (.obj []))).1 =
      getFallbackMessage "insights_error" ∧
    (generateInfluencesInsights ⟨some "key", true⟩
      (.response true (.obj [("candidates", .arr [])]))).1 =
      getFallbackMessage "insights_error" ∧
    (generateInfluencesInsights ⟨some "key", true⟩
      (.response true (.obj [("candidates", .arr [.obj []])]))).1 =
      getFallbackMessage "insights_error" := by
  refine ⟨(generateInfluencesInsights_fallbacks ⟨none, false⟩ .networkError (.obj [])).1
    (by decide), ?_, ?_, ?_, ?_, ?_⟩
  · exact ((generateInfluencesInsights_fallbacks ⟨some "key", true⟩ .networkError
      (.obj [])).2 (by decide)).1
  · exact ((generateInfluencesInsights_fallbacks ⟨some "key", true⟩
      (.response false (.obj [])) (.obj [])).2 (by decide)).2.1
  · exact ((generateInfluencesInsights_fallbacks ⟨some "key", true⟩
      (.response true (.obj [])) (.obj [])).2 (by decide)).2.2 rfl
  · exact ((generateInfluencesInsights_fallbacks ⟨some "key", true⟩
      (.response true (.obj [("candidates", .arr [])]))
      (.obj [("candidates", .arr [])])).2 (by decide)).2.2 rfl
  · exact ((generateInfluencesInsights_fallbacks ⟨some "key", true⟩
      (.response true (.obj [("candidates", .arr [.obj []])]))
      (.obj [("candidates", .arr [.obj []])])).2 (by decide)).2.2 rfl

/-! ## Claim C9 -/

/-- C9: whenever `saveCurrentSection` completes, it modifies only
`metadata.currentSection`: every other top-level property (hence every
field of every section) and every other metadata property — `created`,
`version` and in particular `lastModified` — read exactly as before the
call, and `metadata.currentSection` reads as the given step id. -/
theorem saveCurrentSection_frame (d : JVal) (s : String) (d2 : JVal)
    (h : saveCurrentSection d s = some d2) :
    (∀ k, k ≠ "metadata" → getProp d2 k = getProp d k) ∧
    (∀ k, k ≠ "currentSection" →
      getProp ((getProp d2 "metadata").getD .undefined) k =
        getProp ((getProp d "metadata").getD .undefined) k) ∧
    getProp ((getProp d2 "metadata").getD .undefined) "currentSection" = some (.str s) := by
  unfold saveCurrentSection at h
  rcases hmd : setProp ((getProp d "metadata").getD .undefined) "currentSection" (.str s)
    with _ | md2
  · rw [hmd] at h
    cases h
  · rw [hmd] at h
    refine ⟨fun k hk => getProp_setProp_ne h hk, fun k hk => ?_, ?_⟩
    · rw [getProp_setProp_self h]
      simp only [Option.getD_some]
      exact getProp_setProp_ne hmd hk
    · rw [getProp_setProp_self h]
      simp only [Option.getD_some]
      exact getProp_setProp_self hmd

/-- Closed instance of `saveCurrentSection_frame` on a small document:
the `focus` section and `metadata.lastModified` are untouched while
`metadata.currentSection` becomes the new step id. -/
theorem saveCurrentSection_frame_witness :
    getProp
        (.obj [("metadata", .obj [("created", .str "t0"), ("lastModified", .str "t0"),
            ("version", .str "1.0"), ("currentSection", .str "focus")]),
          ("focus", .obj [("wantMore", .str "x")])])
        "focus" =
      getProp
        (.obj [("metadata", .obj [("created", .str "t0"), ("lastModified", .str "t0"),
            ("version", .str "1.0"), ("currentSection", .str "welcome")]),
          ("focus", .obj [("wantMore", .str "x")])])
        "focus" ∧
    getProp
        ((getProp
          (.obj [("metadata", .obj [("created", .str "t0"), ("lastModified", .str "t0"),
              ("version", .str "1.0"), ("currentSection", .str "focus")]),
            ("focus", .obj [("wantMore", .str "x")])])
          "metadata").getD .undefined)
        "lastModified" = some (.str "t0") ∧
    getProp
        ((getProp
          (.obj [("metadata", .obj [("created", .str "t0"), ("lastModified", .str "t0"),
              ("version", .str "1.0"), ("currentSection", .str "focus")]),
            ("focus", .obj [("wantMore", .str "x")])])
          "metadata").getD .undefined)
        "currentSection" = some (.str "focus") := by
  have h := saveCurrentSection_frame
    (.obj [("metadata", .obj [("created", .str "t0"), ("lastModified", .str "t0"),
        ("version", .str "1.0"), ("currentSection", .str "welcome")]),
      ("focus", .obj [("wantMore", .str "x")])])
    "focus"
    (.obj [("metadata", .obj [("created", .str "t0"), ("lastModified", .str "t0"),
        ("version", .str "1.0"), ("currentSection", .str "focus")]),
      ("focus", .obj [("wantMore", .str "x")])])
    rfl
  refine ⟨h.1 "focus" (by decide), ?_, h.2.2⟩
  rw [h.2.1 "lastModified" (by decide)]
  rfl

/-! ## Claim C1 -/

/-- C1: evaluation of the populate pipeline at the end-to-end scenario.
After `wantMore` is saved as `"I want to feel less rushed"` and the user
navigates to the mapping step (freshly rendered `mapFocus` input, empty
value), `setupAutoPopulation` does write the `wantMore` answer into the
read-only `mapFocus` input — but `populateSectionData` then replays the
stored mapping section, whose default `mapFocus` is the empty string,
over it, so the input ends up empty instead of holding the `wantMore`
text the claim (and the feature) requires. -/
theorem mapFocus_autoPopulation_clobbered :
    ((domGet
        (setupAutoPopulation [("mapFocus", ⟨"INPUT", "text", "", false⟩)]
          (saveField (getDefaultDataStructure "t0") "focus" "wantMore"
            (.str "I want to feel less rushed") "t1").1
          "mapping")
        "mapFocus").map DomElement.value = some "I want to feel less rushed") ∧
    ((domGet
        (populateSectionData [("mapFocus", ⟨"INPUT", "text", "", false⟩)]
          (saveField (getDefaultDataStructure "t0") "focus" "wantMore"
            (.str "I want to feel less rushed") "t1").1
          "mapping")
        "mapFocus").map DomElement.value = some "") := by
  exact ⟨rfl, rfl⟩

/-! ## Claim C4 -/

/-- C4, counterexample: with two positive and two negative items the
positive item at index 1 and the negative item at index 0 are placed at
identical coordinates (their angles are both a quarter turn past the
top), so the negative group is not offset from the positive group by a
quarter turn and the two groups can overlap. -/
theorem surroundingElements_overlap_counterexample :
    ((createSurroundingElements (22 / 7) id id 200 150
        (.str "a, b") (.str "c, d") (.str ""))[1]?).map
      (fun e => (e.x, e.y)) =
    ((createSurroundingElements (22 / 7) id id 200 150
        (.str "a, b") (.str "c, d") (.str ""))[2]?).map
      (fun e => (e.x, e.y)) ∧
    ((createSurroundingElements (22 / 7) id id 200 150
        (.str "a, b") (.str "c, d") (.str ""))[1]?).map MapElement.etype =
      some "positive" ∧
    ((createSurroundingElements (22 / 7) id id 200 150
        (.str "a, b") (.str "c, d") (.str ""))[2]?).map MapElement.etype =
      some "negative" := by
  have hp : parseInfluenceText (JVal.str "a, b") = ["a", "b"] := by decide
  have hd : parseInfluenceText (JVal.str "c, d") = ["c", "d"] := by decide
  refine ⟨?_, rfl, rfl⟩
  simp [createSurroundingElements, hp, hd, List.enum, List.enumFrom]
  norm_num

/-- C4, amended: for a group of `n` parsed items the item at index `i`
sits on radius 120 at angle `base + i * (2 * pi / n)`, with base `-pi/2`
(top) for positive items and `-pi/2 + pi` (bottom) for negative items —
a half-turn offset, which does not keep the two groups from
overlapping — and a present pattern node sits at the fixed upper-right
offset `(+140, -100)` from center.  Every statement is over arbitrary
interpretations of `pi`/`cos`/`sin`, hence holds for the real ones. -/
theorem createSurroundingElements_placement (pi : ℚ) (cosq sinq : ℚ → ℚ)
    (centerX centerY : ℚ) (g dr p : JVal) :
    (∀ i, (hi : i < (parseInfluenceText g).length) →
      (createSurroundingElements pi cosq sinq centerX centerY g dr p)[i]? =
        some { id := "giver-" ++ toString i,
               text := (parseInfluenceText g).get ⟨i, hi⟩,
               etype := "positive",
               x := centerX + cosq (-(pi / 2) +
                 (i : ℚ) * (2 * pi / ((max (parseInfluenceText g).length 1 : ℕ) : ℚ))) * 120,
               y := centerY + sinq (-(pi / 2) +
                 (i : ℚ) * (2 * pi / ((max (parseInfluenceText g).length 1 : ℕ) : ℚ))) * 120,
               width := 100, height := 50, draggable := true }) ∧
    (∀ j, (hj : j < (parseInfluenceText dr).length) →
      (createSurroundingElements pi cosq sinq centerX centerY g dr p)[
          (parseInfluenceText g).length + j]? =
        some { id := "drainer-" ++ toString j,
               text := (parseInfluenceText dr).get ⟨j, hj⟩,
               etype := "negative",
               x := centerX + cosq ((-(pi / 2) + pi) +
                 (j : ℚ) * (2 * pi / ((max (parseInfluenceText dr).length 1 : ℕ) : ℚ))) * 120,
               y := centerY + sinq ((-(pi / 2) + pi) +
                 (j : ℚ) * (2 * pi / ((max (parseInfluenceText dr).length 1 : ℕ) : ℚ))) * 120,
               width := 100, height := 50, draggable := true }) ∧
    (∀ s : String, p = .str s → (!s.isEmpty && !(jsTrim s).isEmpty) = true →
      (createSurroundingElements pi cosq sinq centerX centerY g dr p)[
          (parseInfluenceText g).length + (parseInfluenceText dr).length]? =
        some { id := "pattern", text := s, etype := "pattern",
               x := centerX + 140, y := centerY - 100,
               width := 120, height := 50, draggable := true }) := by
  refine ⟨fun i hi => ?_, fun j hj => ?_, fun s hp hs => ?_⟩
  · simp only [createSurroundingElements]
    rw [List.getElem?_append_left
        (by simp only [List.length_append, List.length_map, List.enum_length]; omega),
      List.getElem?_append_left (by simp only [List.length_map, List.enum_length]; exact hi),
      List.getElem?_map, List.getElem?_enum, List.getElem?_eq_getElem hi]
    simp only [Option.map_some']
    have harg : ((i : ℚ) * 2 * pi) / ((max (parseInfluenceText g).length 1 : ℕ) : ℚ) - pi / 2
        = -(pi / 2) +
          (i : ℚ) * (2 * pi / ((max (parseInfluenceText g).length 1 : ℕ) : ℚ)) := by
      ring
    rw [harg]
    rfl
  · simp only [createSurroundingElements]
    rw [List.getElem?_append_left
        (by simp only [List.length_append, List.length_map, List.enum_length]; omega),
      List.getElem?_append_right (by simp only [List.length_map, List.enum_length]; omega)]
    simp only [List.length_map, List.enum_length, Nat.add_sub_cancel_left]
    rw [List.getElem?_map, List.getElem?_enum, List.getElem?_eq_getElem hj]
    simp only [Option.map_some']
    have harg : ((j : ℚ) * 2 * pi) / ((max (parseInfluenceText dr).length 1 : ℕ) : ℚ) + pi / 2
        = (-(pi / 2) + pi) +
          (j : ℚ) * (2 * pi / ((max (parseInfluenceText dr).length 1 : ℕ) : ℚ)) := by
      ring
    rw [harg]
    rfl
  · subst hp
    simp only [createSurroundingElements, hs]
    rw [List.getElem?_append_right
        (by simp only [List.length_append, List.length_map, List.enum_length]; omega)]
    simp [List.enum_length]

/-- Closed instance of `createSurroundingElements_placement`: one
positive item, one negative item and a pattern label, checked at the
pattern node. -/
theorem createSurroundingElements_placement_witness :
    (createSurroundingElements 1 id id 0 0 (.str "a") (.str "b") (.str "pat"))[
        (parseInfluenceText (.str "a")).length + (parseInfluenceText (.str "b")).length]? =
      some { id := "pattern", text := "pat", etype := "pattern",
             x := (0 : ℚ) + 140, y := (0 : ℚ) - 100,
             width := 120, height := 50, draggable := true } :=
  (createSurroundingElements_placement 1 id id 0 0
    (.str "a") (.str "b") (.str "pat")).2.2 "pat" rfl (by decide)

/-! ## Claim C3 -/

theorem validate_obj {v : JVal} (h : validateDataStructure v = true) :
    ∃ fields, v = .obj fields := by
  cases v with
  | obj fields => exact ⟨fields, rfl⟩
  | arr l => simp [validateDataStructure, truthy, typeofObject, hasOwnProperty] at h
  | null => simp [validateDataStructure, truthy] at h
  | undefined => simp [validateDataStructure, truthy, typeofObject] at h
  | bool b => simp [validateDataStructure, typeofObject] at h
  | num n => simp [validateDataStructure, typeofObject] at h
  | str s => simp [validateDataStructure, typeofObject] at h

/-- C3, counterexample: a replace-mode import of a payload that passes
the shape check but carries `metadata: null` returns the failure
indicator, yet the in-memory document is no longer the pre-call
document — it has been replaced by the imported payload, because the
source assigns `this.data = importedData` before the stamping step that
faults. -/
theorem importData_atomicity_counterexample :
    (importData (getDefaultDataStructure "t0")
        (.value (.obj [("metadata", .null), ("focus", .obj []),
          ("influences", .obj []), ("connections", .obj [])]))
        false "t1").2 = false ∧
    (importData (getDefaultDataStructure "t0")
        (.value (.obj [("metadata", .null), ("focus", .obj []),
          ("influences", .obj []), ("connections", .obj [])]))
        false "t1").1 =
      .obj [("metadata", .null), ("focus", .obj []),
        ("influences", .obj []), ("connections", .obj [])] ∧
    (importData (getDefaultDataStructure "t0")
        (.value (.obj [("metadata", .null), ("focus", .obj []),
          ("influences", .obj []), ("connections", .obj [])]))
        false "t1").1 ≠ getDefaultDataStructure "t0" := by
  refine ⟨rfl, rfl, fun h => ?_⟩
  have h2 : JVal.obj [("metadata", .null), ("focus", .obj []),
      ("influences", .obj []), ("connections", .obj [])] = getDefaultDataStructure "t0" := h
  have hm := congrArg (fun d => getProp d "metadata") h2
  simp [getProp, objGet, getDefaultDataStructure] at hm

/-- C3, amended: failure atomicity holds for malformed payloads, for
shape-check failures, and for merge-mode imports; only a replace-mode
call whose shape-valid payload carries a non-object `metadata` returns
the failure indicator after having already replaced the in-memory
document. -/
theorem importData_failure_atomicity (current : JVal) (payload : ImportPayload)
    (merge : Bool) (now : String)
    (hfail : (importData current payload merge now).2 = false)
    (hsafe : merge = true ∨
      (match payload with
       | .malformed => True
       | .value v => validateDataStructure v = false ∨
           isObjVal (jsPropRead v "metadata") = true)) :
    (importData current payload merge now).1 = current := by
  cases payload with
  | malformed => rfl
  | value v =>
    cases hval : validateDataStructure v with
    | false => simp [importData, hval]
    | true =>
      obtain ⟨fields, rfl⟩ := validate_obj hval
      cases merge with
      | true =>
        simp only [importData, hval, Bool.not_true, Bool.false_eq_true, if_false,
          if_true] at hfail ⊢
        cases hmz : mergeWithDefaults now (.obj fields) with
        | none => simp [hmz]
        | some d => simp [hmz] at hfail
      | false =>
        exfalso
        rcases hsafe with hm | hrest
        · cases hm
        rcases hrest with hbad | hobj
        · rw [hval] at hbad
          cases hbad
        rcases hmdo : jsPropRead (.obj fields) "metadata" with _ | _ | _ | _ | _ | _ | mfields
        all_goals rw [hmdo] at hobj
        all_goals try simp [isObjVal] at hobj
        rw [jsPropRead] at hmdo
        simp only [importData, hval, Bool.not_true, Bool.false_eq_true, if_false,
          getProp, hmdo] at hfail
        simp only [jsPropRead, getProp] at hmdo
        rw [hmdo] at hfail
        simp [setProp] at hfail

/-- Closed instance of `importData_failure_atomicity`: a malformed
payload leaves the document unchanged. -/
theorem importData_failure_atomicity_witness :
    (importData (.obj []) .malformed false "t").1 = .obj [] :=
  importData_failure_atomicity (.obj []) .malformed false "t" rfl (Or.inr trivial)

/-! ## Claim C2 -/

theorem mergeObjects_covers {dflt : JVal} {src : List (String × JVal)} {t t2 : JVal}
    (hall : ∀ kv ∈ src, isObjVal kv.2 = true)
    (h : mergeObjects t src = some t2)
    (hP : CoversProp dflt t) : CoversProp dflt t2 := by
  induction src generalizing t with
  | nil => rw [mergeObjects_nil h]; exact hP
  | cons hd tl ih =>
    obtain ⟨key, v⟩ := hd
    have hv := hall (key, v) (List.mem_cons_self _ _)
    cases v with
    | null => simp [isObjVal] at hv
    | undefined => simp [isObjVal] at hv
    | bool b => simp [isObjVal] at hv
    | num n => simp [isObjVal] at hv
    | str s => simp [isObjVal] at hv
    | arr l => simp [isObjVal] at hv
    | obj vfields =>
      rw [mergeObjects_cons_obj] at h
      rcases h1 : (if truthyOpt (getProp t key) then some t
          else setProp t key (JVal.obj [])) with _ | t1
      · rw [h1] at h
        cases h
      simp only [h1] at h
      rcases h2 : mergeObjects ((getProp t1 key).getD .undefined) vfields with _ | m
      · simp only [h2] at h
        cases h
      simp only [h2] at h
      rcases h3 : setProp t1 key m with _ | t3
      · simp only [h3] at h
        cases h
      simp only [h3] at h
      have ht1cases : (truthyOpt (getProp t key) = true ∧ t1 = t) ∨
          (truthyOpt (getProp t key) = false ∧
            setProp t key (JVal.obj []) = some t1) := by
        by_cases htr : truthyOpt (getProp t key) = true
        · rw [if_pos htr] at h1
          exact Or.inl ⟨htr, (Option.some.inj h1).symm⟩
        · rw [if_neg htr] at h1
          exact Or.inr ⟨Bool.eq_false_iff.mpr htr, h1⟩
      refine ih (fun kv hkv => hall kv (List.mem_cons_of_mem _ hkv)) h ?_
      rintro ⟨k1, kvv⟩ hkv
      obtain ⟨hk1, hk2⟩ := hP (k1, kvv) hkv
      have ht1own : hasOwnProperty t1 k1 = true := by
        rcases ht1cases with ⟨_, rfl⟩ | ⟨_, hsp⟩
        · exact hk1
        · exact hasOwnProperty_setProp hsp k1 hk1
      refine ⟨hasOwnProperty_setProp h3 k1 ht1own, ?_⟩
      intro gs hgs kv2 hkv2
      by_cases hkey : k1 = key
      · subst hkey
        rw [getProp_setProp_self h3]
        simp only [Option.getD_some]
        have hinner : hasOwnProperty ((getProp t1 k1).getD .undefined) kv2.1 = true := by
          rcases ht1cases with ⟨htr, rfl⟩ | ⟨htr, hsp⟩
          · exact hk2 gs hgs kv2 hkv2
          · exfalso
            have hcontr := hk2 gs hgs kv2 hkv2
            rcases hgp : getProp t k1 with _ | y
            · rw [hgp] at hcontr
              simp [hasOwnProperty] at hcontr
            · rw [hgp] at hcontr htr
              simp only [Option.getD_some] at hcontr
              simp [truthyOpt, truthy_of_hasOwnProperty hcontr] at htr
        exact mergeObjects_hasProp h2 kv2.1 hinner
      · rw [getProp_setProp_ne h3 hkey]
        rcases ht1cases with ⟨_, rfl⟩ | ⟨_, hsp⟩
        · exact hk2 gs hgs kv2 hkv2
        · rw [getProp_setProp_ne hsp hkey]
          exact hk2 gs hgs kv2 hkv2

/-- C2, counterexample: the stored value with `focus: "x"` passes the
minimal shape check (all four required keys are own properties), yet the
merged Document's `focus` section is the string `"x"` and no longer owns
the default field key `wantMore` — the merge replaces a section
wholesale when its stored value is not an object. -/
theorem mergeOnLoad_fieldKeys_counterexample :
    validateDataStructure (.obj [("metadata", .obj []), ("focus", .str "x"),
      ("influences", .obj []), ("connections", .obj [])]) = true ∧
    (loadData "t" (.obj [("metadata", .obj []), ("focus", .str "x"),
      ("influences", .obj []), ("connections", .obj [])])).map
      (fun d => hasOwnProperty ((getProp d "focus").getD .undefined) "wantMore") =
      some false ∧
    (loadData "t" (.obj [("metadata", .obj []), ("focus", .str "x"),
      ("influences", .obj []), ("connections", .obj [])])).map
      (fun d => hasOwnProperty d "focus") = some true := by
  exact ⟨rfl, rfl, rfl⟩

/-- C2, amended: for every stored value passing the minimal shape check
on which the load completes, the loaded Document owns every top-level
key of the canonical default structure; it additionally owns every field
key of every default section whenever each stored top-level value is
itself a plain object — a stored primitive or array section value
replaces that section wholesale and can drop default field keys. -/
theorem loadData_structural_completeness (now : String) (stored d : JVal)
    (hv : validateDataStructure stored = true)
    (hl : loadData now stored = some d) :
    (∀ k, hasOwnProperty (getDefaultDataStructure now) k = true →
      hasOwnProperty d k = true) ∧
    ((∀ kv ∈ objFields stored, isObjVal kv.2 = true) →
      coveredTwoLevels (getDefaultDataStructure now) d = true) := by
  have htr : truthy stored = true := by
    obtain ⟨f, rfl⟩ := validate_obj hv
    rfl
  rw [loadData, if_pos (by rw [htr, hv]; rfl)] at hl
  rw [mergeWithDefaults] at hl
  rcases hm : mergeObjects (getDefaultDataStructure now) (objFields stored)
    with _ | merged
  · rw [hm] at hl
    cases hl
  simp only [hm] at hl
  rcases hmd : setProp ((getProp merged "metadata").getD .undefined) "lastModified"
      (.str now) with _ | md2
  · simp only [hmd] at hl
    cases hl
  simp only [hmd] at hl
  constructor
  · intro k hk
    exact hasOwnProperty_setProp hl k (mergeObjects_hasProp hm k hk)
  · intro hall
    rw [coveredTwoLevels_iff]
    have hbase : CoversProp (getDefaultDataStructure now) (getDefaultDataStructure now) :=
      (coveredTwoLevels_iff _ _).mp rfl
    have hmerged := mergeObjects_covers hall hm hbase
    rintro ⟨k1, kvv⟩ hkv
    obtain ⟨hk1, hk2⟩ := hmerged (k1, kvv) hkv
    refine ⟨hasOwnProperty_setProp hl k1 hk1, ?_⟩
    intro gs hgs kv2 hkv2
    by_cases hkey : k1 = "metadata"
    · subst hkey
      rw [getProp_setProp_self hl]
      simp only [Option.getD_some]
      exact hasOwnProperty_setProp hmd kv2.1 (hk2 gs hgs kv2 hkv2)
    · rw [getProp_setProp_ne hl hkey]
      exact hk2 gs hgs kv2 hkv2

/-- Closed instance of `loadData_structural_completeness`: a small
stored value whose sections are all objects loads into a Document
covering both the section keys and the field keys of the default
structure. -/
theorem loadData_structural_completeness_witness :
    (loadData "t" (.obj [("metadata", .obj []),
      ("focus", .obj [("wantMore", .str "hi")]),
      ("influences", .obj []), ("connections", .obj [])])).map
      (fun d => coveredTwoLevels (getDefaultDataStructure "t") d) = some true := by
  obtain ⟨d, hd⟩ := Option.isSome_iff_exists.mp
    (show (loadData "t" (.obj [("metadata", .obj []),
      ("focus", .obj [("wantMore", .str "hi")]),
      ("influences", .obj []), ("connections", .obj [])])).isSome = true from rfl)
  rw [hd]
  have h := (loadData_structural_completeness "t"
    (.obj [("metadata", .obj []), ("focus", .obj [("wantMore", .str "hi")]),
      ("influences", .obj []), ("connections", .obj [])]) d rfl hd).2
    (by decide)
  rw [Option.map_some']
  exact congrArg some h

/-! ## Claim C5 -/

theorem length_filter_mono {α : Type} {l : List α} {p q : α → Bool}
    (h : ∀ x ∈ l, p x = true → q x = true) :
    (l.filter p).length ≤ (l.filter q).length := by
  induction l with
  | nil => simp
  | cons hd tl ih =>
    have htl := ih (fun x hx => h x (List.mem_cons_of_mem _ hx))
    cases hp : p hd with
    | false =>
      cases hq : q hd with
      | false => simpa [List.filter, hp, hq] using htl
      | true =>
        simp only [List.filter, hp, hq]
        exact Nat.le_succ_of_le htl
    | true =>
      have hq := h hd (List.mem_cons_self _ _) hp
      simp only [List.filter, hp, hq, List.length_cons]
      exact Nat.succ_le_succ htl

theorem jsRound_mono {a b : ℚ} (h : a ≤ b) : jsRound a ≤ jsRound b :=
  Int.floor_le_floor (by linarith)

theorem saveField_success {d : JVal} {s f : String} {val : JVal} {now2 : String}
    {d2 : JVal} (h : saveField d s f val now2 = (d2, true)) :
    ∃ d1 dd2,
      ((truthyOpt (getProp d s) = true ∧ d1 = d) ∨
        (truthyOpt (getProp d s) = false ∧ setProp d s (.obj []) = some d1)) ∧
      (∃ sec2, setProp ((getProp d1 s).getD .undefined) f val = some sec2 ∧
        setProp d1 s sec2 = some dd2) ∧
      (∃ md2, setProp ((getProp dd2 "metadata").getD .undefined) "lastModified"
          (.str now2) = some md2 ∧
        setProp dd2 "metadata" md2 = some d2) := by
  unfold saveField at h
  rcases h1 : (if truthyOpt (getProp d s) then some d
      else setProp d s (.obj [])) with _ | d1
  · rw [h1] at h
    cases h
  simp only [h1] at h
  rcases h2 : setProp ((getProp d1 s).getD .undefined) f val with _ | sec2
  · simp only [h2] at h
    cases h
  simp only [h2] at h
  rcases h3 : setProp d1 s sec2 with _ | dd2
  · simp only [h3] at h
    cases h
  simp only [h3] at h
  rcases h4 : setProp ((getProp dd2 "metadata").getD .undefined) "lastModified"
      (.str now2) with _ | md2
  · simp only [h4] at h
    cases h
  simp only [h4] at h
  rcases h5 : setProp dd2 "metadata" md2 with _ | d3
  · simp only [h5] at h
    cases h
  simp only [h5] at h
  obtain ⟨rfl, -⟩ := Prod.mk.injEq .. ▸ h
  refine ⟨d1, dd2, ?_, ⟨sec2, h2, h3⟩, ⟨md2, h4, h5 ▸ rfl⟩⟩
  by_cases htr : truthyOpt (getProp d s) = true
  · rw [if_pos htr] at h1
    exact Or.inl ⟨htr, (Option.some.inj h1).symm⟩
  · rw [if_neg htr] at h1
    exact Or.inr ⟨Bool.eq_false_iff.mpr htr, h1⟩

theorem saveField_getField_other {d d2 : JVal} {s f : String} {val : JVal}
    {now2 : String} (h : saveField d s f val now2 = (d2, true))
    (s2 f2 : String) (hs : s2 ≠ "metadata") (hsf : ¬(s2 = s ∧ f2 = f)) :
    getField d2 s2 f2 (.str "") = getField d s2 f2 (.str "") := by
  obtain ⟨d1, dd2, hd1, ⟨sec2, hsec2, hdd2⟩, md2, hmd2, hd2⟩ := saveField_success h
  by_cases hss : s2 = s
  · subst hss
    have hf : f2 ≠ f := fun he => hsf ⟨rfl, he⟩
    have hg2 : getProp d2 s2 = some sec2 := by
      rw [getProp_setProp_ne hd2 hs, getProp_setProp_self hdd2]
    obtain ⟨secf, hsecf, rfl⟩ := setProp_obj_exists hsec2
    have hf2 : ¬f = f2 := fun he => hf he.symm
    rcases hd1 with ⟨htr, hdeq⟩ | ⟨htr, hsp⟩
    · rw [hdeq] at hsecf
      rcases hgp : getProp d s2 with _ | y
      · rw [hgp] at hsecf
        cases hsecf
      · rw [hgp] at hsecf
        simp only [Option.getD_some] at hsecf
        subst hsecf
        rw [getField, getField, hgp, hg2]
        simp only [truthy, hasOwnProperty, getProp]
        rw [objGet_objSet_ne secf f f2 val hf]
    · obtain ⟨df, hdeq, rfl⟩ := setProp_obj_exists hsp
      subst hdeq
      rw [getProp, objGet_objSet_self] at hsecf
      simp only [Option.getD_some] at hsecf
      obtain rfl : secf = [] := by
        cases hsecf
        rfl
      have hL : getField d2 s2 f2 (.str "") = .str "" := by
        rw [getField, hg2]
        simp [truthy, hasOwnProperty, getProp, objSet, objGet, hf2]
      have hR : getField (JVal.obj df) s2 f2 (.str "") = .str "" := by
        rw [getField]
        rcases hgp : getProp (JVal.obj df) s2 with _ | y
        · rfl
        · rw [hgp] at htr
          simp only [truthyOpt] at htr
          simp [htr]
      rw [hL, hR]
  · have hgp : getProp d2 s2 = getProp d s2 := by
      rw [getProp_setProp_ne hd2 hs, getProp_setProp_ne hdd2 hss]
      rcases hd1 with ⟨_, rfl⟩ | ⟨_, hsp⟩
      · rfl
      · rw [getProp_setProp_ne hsp hss]
    rw [getField, getField, hgp]

/-- C5, counterexample: a Document whose seven anchor fields all hold
the non-empty string `" "` (a single space) has completion percentage 0,
not 100 — the source counts a field only when it is non-empty after
trimming. -/
theorem completionPercentage_whitespace_counterexample :
    (anchorFieldPaths.all (fun p =>
      match getField (.obj [("focus", .obj [("wantMore", .str " ")]),
        ("influences", .obj [("energyGivers", .str " "), ("energyDrainers", .str " ")]),
        ("connections", .obj [("ahaReflection", .str " ")]),
        ("patterns", .obj [("keyLearning", .str " ")]),
        ("goals", .obj [("goalStatement", .str " ")]),
        ("commitment", .obj [("commitmentText", .str " ")])]) p.1 p.2 (.str "") with
      | .str s => !s.isEmpty
      | _ => false)) = true ∧
    getCompletionPercentage (.obj [("focus", .obj [("wantMore", .str " ")]),
      ("influences", .obj [("energyGivers", .str " "), ("energyDrainers", .str " ")]),
      ("connections", .obj [("ahaReflection", .str " ")]),
      ("patterns", .obj [("keyLearning", .str " ")]),
      ("goals", .obj [("goalStatement", .str " ")]),
      ("commitment", .obj [("commitmentText", .str " ")])]) = 0 ∧
    getCompletionPercentage (.obj [("focus", .obj [("wantMore", .str " ")]),
      ("influences", .obj [("energyGivers", .str " "), ("energyDrainers", .str " ")]),
      ("connections", .obj [("ahaReflection", .str " ")]),
      ("patterns", .obj [("keyLearning", .str " ")]),
      ("goals", .obj [("goalStatement", .str " ")]),
      ("commitment", .obj [("commitmentText", .str " ")])]) ≠ 100 := by
  refine ⟨by decide, ?_, ?_⟩
  · rw [getCompletionPercentage,
      show completedAnchorCount (.obj [("focus", .obj [("wantMore", .str " ")]),
        ("influences", .obj [("energyGivers", .str " "), ("energyDrainers", .str " ")]),
        ("connections", .obj [("ahaReflection", .str " ")]),
        ("patterns", .obj [("keyLearning", .str " ")]),
        ("goals", .obj [("goalStatement", .str " ")]),
        ("commitment", .obj [("commitmentText", .str " ")])]) = 0 from rfl,
      show anchorFieldPaths.length = 7 from rfl, jsRound]
    norm_num
  · rw [getCompletionPercentage,
      show completedAnchorCount (.obj [("focus", .obj [("wantMore", .str " ")]),
        ("influences", .obj [("energyGivers", .str " "), ("energyDrainers", .str " ")]),
        ("connections", .obj [("ahaReflection", .str " ")]),
        ("patterns", .obj [("keyLearning", .str " ")]),
        ("goals", .obj [("goalStatement", .str " ")]),
        ("commitment", .obj [("commitmentText", .str " ")])]) = 0 from rfl,
      show anchorFieldPaths.length = 7 from rfl, jsRound]
    norm_num

/-- C5, amended: `getCompletionPercentage` returns 0 for a freshly
defaulted Document, returns 100 when all seven anchor fields are
non-empty after trimming whitespace (a whitespace-only string does not
count), and is monotonically non-decreasing when a previously-empty
anchor field is set to any string value by a completed `saveField`. -/
theorem getCompletionPercentage_anchors (now now2 : String) (d d2 : JVal)
    (s f v : String) :
    getCompletionPercentage (getDefaultDataStructure now) = 0 ∧
    ((∀ p ∈ anchorFieldPaths,
        countsAsCompleted (getField d p.1 p.2 (.str "")) = true) →
      getCompletionPercentage d = 100) ∧
    ((s, f) ∈ anchorFieldPaths →
      getField d s f (.str "") = .str "" →
      saveField d s f (.str v) now2 = (d2, true) →
      getCompletionPercentage d ≤ getCompletionPercentage d2) := by
  refine ⟨?_, fun hall => ?_, fun hmem hempty hsave => ?_⟩
  · rw [getCompletionPercentage,
      show completedAnchorCount (getDefaultDataStructure now) = 0 from rfl,
      show anchorFieldPaths.length = 7 from rfl, jsRound]
    norm_num
  · have hcnt : completedAnchorCount d = 7 := by
      rw [completedAnchorCount, List.filter_eq_self.mpr (fun p hp => hall p hp)]
      rfl
    rw [getCompletionPercentage, hcnt, show anchorFieldPaths.length = 7 from rfl,
      jsRound]
    norm_num
  · have hsne : s ≠ "metadata" := by
      fin_cases hmem <;> decide
    have hcnt : completedAnchorCount d ≤ completedAnchorCount d2 := by
      refine length_filter_mono (fun p hp hcc => ?_)
      by_cases hpsf : p.1 = s ∧ p.2 = f
      · exfalso
        obtain ⟨h1, h2⟩ := hpsf
        rw [h1, h2, hempty] at hcc
        exact absurd hcc (by decide)
      · have hp1 : p.1 ≠ "metadata" := by
          fin_cases hp <;> decide
        rw [saveField_getField_other hsave p.1 p.2 hp1 hpsf]
        exact hcc
    rw [getCompletionPercentage, getCompletionPercentage]
    refine jsRound_mono ?_
    have h7 : ((anchorFieldPaths.length : ℚ)) = 7 := by norm_num [anchorFieldPaths]
    rw [h7]
    gcongr


/-- Closed instance of `getCompletionPercentage_anchors`: the fresh
default is at 0, a Document with all anchors filled is at 100, and
filling `focus.wantMore` does not decrease the percentage. -/
theorem getCompletionPercentage_anchors_witness :
    getCompletionPercentage (getDefaultDataStructure "t0") = 0 ∧
    getCompletionPercentage (.obj [("focus", .obj [("wantMore", .str "x")]),
      ("influences", .obj [("energyGivers", .str "x"), ("energyDrainers", .str "x")]),
      ("connections", .obj [("ahaReflection", .str "x")]),
      ("patterns", .obj [("keyLearning", .str "x")]),
      ("goals", .obj [("goalStatement", .str "x")]),
      ("commitment", .obj [("commitmentText", .str "x")])]) = 100 ∧
    getCompletionPercentage (getDefaultDataStructure "t0") ≤
      getCompletionPercentage
        ((saveField (getDefaultDataStructure "t0") "focus" "wantMore"
          (.str "hi") "t1").1) := by
  refine ⟨(getCompletionPercentage_anchors "t0" "t1" (.obj []) (.obj []) "s" "f" "v").1,
    ?_, ?_⟩
  · exact (getCompletionPercentage_anchors "t0" "t1"
      (.obj [("focus", .obj [("wantMore", .str "x")]),
        ("influences", .obj [("energyGivers", .str "x"), ("energyDrainers", .str "x")]),
        ("connections", .obj [("ahaReflection", .str "x")]),
        ("patterns", .obj [("keyLearning", .str "x")]),
        ("goals", .obj [("goalStatement", .str "x")]),
        ("commitment", .obj [("commitmentText", .str "x")])])
      (.obj []) "s" "f" "v").2.1 (by decide)
  · exact (getCompletionPercentage_anchors "t0" "t1" (getDefaultDataStructure "t0")
      ((saveField (getDefaultDataStructure "t0") "focus" "wantMore"
        (.str "hi") "t1").1) "focus" "wantMore" "hi").2.2 (by decide) rfl rfl

end ClarityMap
